import Mathlib

/-!
Shallow embedding of the water-monitor sketch (src/code.ino).

Floating-point (`float`) arithmetic of the source is modelled with exact
rationals (`ℚ`); constants such as 2.29 or 133.42 denote their exact decimal
values. Raw ADC samples (`analogRead`) are C `int` values, modelled as `ℤ`.
Quality labels are the exact strings the sketch produces.

The control loop (`loop`) is modelled as a step function on the two pieces of
state that persist across iterations (`isRunning`, `lastReadingTime`), taking
as inputs the (already trimmed) console line read this iteration, if any, the
wall-clock time from the RTC, and the monotonic millisecond counter `millis()`.
The two `millis()` calls of one iteration (lines 104-105) are modelled as a
single sample, and `millis()` arithmetic is `unsigned long` (32-bit) wrap
arithmetic. Invocations of `readAllSensors` and `logSensorValues`, and printed
output, are recorded as event flags; `readAllSensors` itself is the separate
pure function below from actual sensor samples to the report it prints.
-/

/-- `PH_VOLTAGE_REF` (code.ino line 10). -/
def PH_VOLTAGE_REF : ℚ := 5.0

/-- `TDS_VOLTAGE_REF` (code.ino line 17). -/
def TDS_VOLTAGE_REF : ℚ := 5.0

/-- `CALIBRATION_FACTOR` (code.ino line 18). -/
def CALIBRATION_FACTOR : ℚ := 0.7

/-- `readingInterval` (code.ino line 25): one minute in milliseconds. -/
def readingInterval : ℕ := 60000

/-- Raw-to-voltage linear scaling `(raw / fullScaleRaw) * referenceVoltage`,
as inlined at code.ino lines 116 and 138. -/
def voltageOf (raw : ℤ) (fullScaleRaw referenceVoltage : ℚ) : ℚ :=
  ((raw : ℚ) / fullScaleRaw) * referenceVoltage

/-- `mapVoltageToPH` (code.ino lines 154-156). -/
def mapVoltageToPH (voltage pHLow pHHigh voltageLow voltageHigh : ℚ) : ℚ :=
  pHLow + ((voltage - voltageLow) * (pHHigh - pHLow)) / (voltageHigh - voltageLow)

/-- The voltage-to-pH band selection of `readAllSensors` (code.ino lines
119-128), extracted as a function of the pH voltage. -/
def pHFromVoltage (pHVoltage : ℚ) : ℚ :=
  if 1.0 ≤ pHVoltage ∧ pHVoltage < 1.6 then
    mapVoltageToPH pHVoltage 7.0 8.0 1.0 1.6
  else if 1.6 ≤ pHVoltage ∧ pHVoltage < 2.0 then
    mapVoltageToPH pHVoltage 8.0 9.0 1.6 2.0
  else if 2.0 ≤ pHVoltage ∧ pHVoltage < 2.5 then
    mapVoltageToPH pHVoltage 6.0 7.5 2.0 2.5
  else if 2.5 ≤ pHVoltage ∧ pHVoltage < 3.0 then
    mapVoltageToPH pHVoltage 7.5 9.0 2.5 3.0
  else
    0.0

/-- `evaluatePHQuality` (code.ino lines 158-165). The second argument `pH`
is the computed pH value; the source accepts it but never reads it. -/
def evaluatePHQuality (voltage pH : ℚ) : String :=
  if voltage ≤ 2.29 then
    "Acidic - Bad"
  else if 2.3 ≤ voltage ∧ voltage ≤ 2.5 then
    "Good"
  else
    "Bad - Alkaline"

/-- `evaluateTurbidityQuality` (code.ino lines 167-169). -/
def evaluateTurbidityQuality (voltage : ℚ) : String :=
  if 2.0 ≤ voltage ∧ voltage ≤ 5.0 then "Good" else "Bad"

/-- `evaluateTDSQuality` (code.ino lines 171-173). -/
def evaluateTDSQuality (tds : ℚ) : String :=
  if tds ≤ 500 then "Good" else "Bad"

/-- `calculateTDS` (code.ino lines 175-181). The global `temperature`
(line 29, initialised to 25.0 and never reassigned) is passed explicitly. -/
def calculateTDS (rawValue : ℤ) (temperature : ℚ) : ℚ :=
  let voltage : ℚ := ((rawValue : ℚ) / 1024.0) * TDS_VOLTAGE_REF
  let tds : ℚ :=
    (133.42 * voltage * voltage * voltage - 255.86 * voltage * voltage + 857.39 * voltage) * 0.5
  let tds2 : ℚ := tds * CALIBRATION_FACTOR
  let compensation : ℚ := 1.0 + 0.02 * (temperature - 25.0)
  tds2 / compensation

/-- Modelled from the spec: the reference TDS formula of spec section 4.1
(`tdsFromRaw`), stated from the spec's words to compare with `calculateTDS`:
voltage = (raw/1024.0)·referenceVoltage, cubic polynomial halved, times the
calibration factor 0.7, divided by 1.0 + 0.02·(temperatureC − 25.0). -/
def tdsFromRaw_ref (raw : ℤ) (temperatureC : ℚ) : ℚ :=
  let v : ℚ := ((raw : ℚ) / 1024.0) * 5.0
  ((133.42 * v ^ 3 - 255.86 * v ^ 2 + 857.39 * v) * 0.5) * 0.7
    / (1.0 + 0.02 * (temperatureC - 25.0))

/-- Result of `evaluateOverallQuality` (code.ino lines 183-190): the verdict
string printed, and whether the advisory message (line 187) was printed. -/
structure OverallReport where
  overall : String
  advisoryEmitted : Bool
  deriving DecidableEq, Repr

/-- `evaluateOverallQuality` (code.ino lines 183-190). -/
def evaluateOverallQuality (pHQuality turbidityQuality tdsQuality : String) : OverallReport :=
  let overall : String :=
    if pHQuality = "Good" ∧ turbidityQuality = "Good" ∧ tdsQuality = "Good" then
      "Excellent"
    else
      "Poor, Needs Treatment"
  { overall := overall, advisoryEmitted := decide (overall ≠ "Excellent") }

/-- Everything `readAllSensors` computes and emits in one acquisition cycle
(code.ino lines 111-151): the values printed to the console and the pH value
sent to the companion device on `mySerial` (line 134). -/
structure SensorReport where
  pHVoltage : ℚ
  pHValue : ℚ
  pHQuality : String
  pHSentToCompanion : ℚ
  turbVoltage : ℚ
  turbQuality : String
  tds : ℚ
  tdsQuality : String
  overall : OverallReport
  deriving DecidableEq, Repr

/-- `readAllSensors` (code.ino lines 111-151) as a pure function of the three
`analogRead` samples and the global `temperature`. -/
def readAllSensors (pHRaw turbRaw tdsRaw : ℤ) (temperature : ℚ) : SensorReport :=
  let pHVoltage : ℚ := voltageOf pHRaw 1023.0 PH_VOLTAGE_REF
  let pHValue : ℚ := pHFromVoltage pHVoltage
  let pHQuality : String := evaluatePHQuality pHVoltage pHValue
  let turbVoltage : ℚ := voltageOf turbRaw 1023.0 5.0
  let turbQuality : String := evaluateTurbidityQuality turbVoltage
  let tds : ℚ := calculateTDS tdsRaw temperature
  let tdsQuality : String := evaluateTDSQuality tds
  { pHVoltage := pHVoltage
    pHValue := pHValue
    pHQuality := pHQuality
    pHSentToCompanion := pHValue
    turbVoltage := turbVoltage
    turbQuality := turbQuality
    tds := tds
    tdsQuality := tdsQuality
    overall := evaluateOverallQuality pHQuality turbQuality tdsQuality }

/-- Wall-clock time from `rtc.now()`: hour, minute, second. -/
structure TimeMark where
  hour : ℕ
  minute : ℕ
  second : ℕ
  deriving DecidableEq, Repr

/-- The state that persists across `loop` iterations: `isRunning` (line 28)
and `lastReadingTime` (line 24, an `unsigned long`, kept below 2^32). -/
structure LoopState where
  isRunning : Bool
  lastReadingTime : ℕ
  deriving DecidableEq, Repr

/-- Observable events of one `loop` iteration: whether the command branch
invoked `readAllSensors` (line 87), whether `logSensorValues` ran (line 100),
and whether the periodic trigger invoked `readAllSensors` (line 106). -/
structure LoopEvents where
  commandReadInvoked : Bool
  dailyLogInvoked : Bool
  periodicReadInvoked : Bool
  deriving DecidableEq, Repr

/-- ASCII `tolower`, as used character-wise by Arduino's `strcasecmp`. -/
def asciiToLower (c : Char) : Char :=
  if 'A' ≤ c ∧ c ≤ 'Z' then Char.ofNat (c.toNat + 32) else c

/-- Arduino `String::equalsIgnoreCase` (used at code.ino line 86):
character-wise case-insensitive comparison. -/
def equalsIgnoreCase (a b : String) : Bool :=
  a.data.map asciiToLower == b.data.map asciiToLower

/-- The command dispatch of `loop` (code.ino lines 78-88) on one trimmed
console line: the updated state and whether `readAllSensors` was invoked. -/
def processCommand (s : LoopState) (command : String) : LoopState × Bool :=
  if command = "st" then
    ({ s with isRunning := false }, false)
  else if command = "s" then
    ({ s with isRunning := true }, false)
  else if command = "c" then
    (s, false)
  else if equalsIgnoreCase command "r" then
    (s, true)
  else
    (s, false)

/-- `unsigned long` elapsed time `now - last` (code.ino line 104): 32-bit
wrap-around subtraction, for `now` and `last` below 2^32. -/
def millisElapsed (now last : ℕ) : ℕ :=
  (now + 2 ^ 32 - last) % 2 ^ 32

/-- One iteration of `loop` (code.ino lines 73-108). `input` is the trimmed
console line when `Serial.available()`, `t` is `rtc.now()` (line 96), and
`nowMs` is the `millis()` sample of this iteration. -/
def loopStep (s : LoopState) (input : Option String) (t : TimeMark) (nowMs : ℕ) :
    LoopState × LoopEvents :=
  let afterCmd : LoopState × Bool :=
    match input with
    | some command => processCommand s command
    | none => (s, false)
  let s1 := afterCmd.1
  let cmdRead := afterCmd.2
  if s1.isRunning = false then
    (s1, { commandReadInvoked := cmdRead, dailyLogInvoked := false, periodicReadInvoked := false })
  else
    let daily : Bool := decide (t.hour = 10 ∧ t.minute = 0 ∧ t.second = 0)
    if readingInterval ≤ millisElapsed nowMs s1.lastReadingTime then
      ({ s1 with lastReadingTime := nowMs },
        { commandReadInvoked := cmdRead, dailyLogInvoked := daily, periodicReadInvoked := true })
    else
      (s1,
        { commandReadInvoked := cmdRead, dailyLogInvoked := daily, periodicReadInvoked := false })

/-- Continuity of a rational-valued function at a point, epsilon-delta over ℚ. -/
def contAtQ (f : ℚ → ℚ) (b : ℚ) : Prop :=
  ∀ ε : ℚ, 0 < ε → ∃ δ : ℚ, 0 < δ ∧ ∀ v : ℚ, |v - b| < δ → |f v - f b| < ε

/-- Band 1 of `pHFromVoltage`: on [1.0, 1.6) the first interpolation applies. -/
lemma pHFromVoltage_in1 (v : ℚ) (h1 : 1.0 ≤ v) (h2 : v < 1.6) :
    pHFromVoltage v = mapVoltageToPH v 7.0 8.0 1.0 1.6 := by
  unfold pHFromVoltage
  rw [if_pos ⟨h1, h2⟩]

/-- Band 2 of `pHFromVoltage`: on [1.6, 2.0) the second interpolation applies. -/
lemma pHFromVoltage_in2 (v : ℚ) (h1 : 1.6 ≤ v) (h2 : v < 2.0) :
    pHFromVoltage v = mapVoltageToPH v 8.0 9.0 1.6 2.0 := by
  unfold pHFromVoltage
  rw [if_neg (by rintro ⟨ha, hb⟩; norm_num at *; linarith), if_pos ⟨h1, h2⟩]

/-- Band 3 of `pHFromVoltage`: on [2.0, 2.5) the third interpolation applies. -/
lemma pHFromVoltage_in3 (v : ℚ) (h1 : 2.0 ≤ v) (h2 : v < 2.5) :
    pHFromVoltage v = mapVoltageToPH v 6.0 7.5 2.0 2.5 := by
  unfold pHFromVoltage
  rw [if_neg (by rintro ⟨ha, hb⟩; norm_num at *; linarith),
    if_neg (by rintro ⟨ha, hb⟩; norm_num at *; linarith), if_pos ⟨h1, h2⟩]

/-- Band 4 of `pHFromVoltage`: on [2.5, 3.0) the fourth interpolation applies. -/
lemma pHFromVoltage_in4 (v : ℚ) (h1 : 2.5 ≤ v) (h2 : v < 3.0) :
    pHFromVoltage v = mapVoltageToPH v 7.5 9.0 2.5 3.0 := by
  unfold pHFromVoltage
  rw [if_neg (by rintro ⟨ha, hb⟩; norm_num at *; linarith),
    if_neg (by rintro ⟨ha, hb⟩; norm_num at *; linarith),
    if_neg (by rintro ⟨ha, hb⟩; norm_num at *; linarith), if_pos ⟨h1, h2⟩]

/-- Out-of-band voltages hit the sentinel branch of `pHFromVoltage`. -/
lemma pHFromVoltage_out (v : ℚ) (h : v < 1.0 ∨ 3.0 ≤ v) : pHFromVoltage v = 0 := by
  unfold pHFromVoltage
  rw [if_neg (by rintro ⟨ha, hb⟩; rcases h with h | h <;> (norm_num at *; linarith)),
    if_neg (by rintro ⟨ha, hb⟩; rcases h with h | h <;> (norm_num at *; linarith)),
    if_neg (by rintro ⟨ha, hb⟩; rcases h with h | h <;> (norm_num at *; linarith)),
    if_neg (by rintro ⟨ha, hb⟩; rcases h with h | h <;> (norm_num at *; linarith))]
  norm_num

/-- Closed form of band 2. -/
lemma pHFromVoltage_lin2 (v : ℚ) (h1 : 1.6 ≤ v) (h2 : v < 2.0) :
    pHFromVoltage v = 8 + (v - 1.6) * (5 / 2) := by
  rw [pHFromVoltage_in2 v h1 h2]
  unfold mapVoltageToPH
  norm_num
  ring_nf

/-- Closed form of band 1. -/
lemma pHFromVoltage_lin1 (v : ℚ) (h1 : 1.0 ≤ v) (h2 : v < 1.6) :
    pHFromVoltage v = 7 + (v - 1) * (5 / 3) := by
  rw [pHFromVoltage_in1 v h1 h2]
  unfold mapVoltageToPH
  norm_num
  ring_nf

/-- Closed form of band 3. -/
lemma pHFromVoltage_lin3 (v : ℚ) (h1 : 2.0 ≤ v) (h2 : v < 2.5) :
    pHFromVoltage v = 6 + (v - 2) * 3 := by
  rw [pHFromVoltage_in3 v h1 h2]
  unfold mapVoltageToPH
  norm_num
  ring_nf

/-- Closed form of band 4. -/
lemma pHFromVoltage_lin4 (v : ℚ) (h1 : 2.5 ≤ v) (h2 : v < 3.0) :
    pHFromVoltage v = 7.5 + (v - 2.5) * 3 := by
  rw [pHFromVoltage_in4 v h1 h2]
  unfold mapVoltageToPH
  norm_num
  ring_nf


/-- Claim C1: for every voltage, `evaluatePHQuality` returns the acidic label
when voltage ≤ 2.29, "Good" when 2.30 ≤ voltage ≤ 2.50, and the alkaline label
otherwise; and the result depends on the voltage alone, never on the computed
pH argument. -/
theorem evaluatePHQuality_classification (voltage pH1 pH2 : ℚ) :
    (voltage ≤ 2.29 → evaluatePHQuality voltage pH1 = "Acidic - Bad") ∧
    (2.30 ≤ voltage ∧ voltage ≤ 2.50 → evaluatePHQuality voltage pH1 = "Good") ∧
    (¬ voltage ≤ 2.29 → ¬ (2.30 ≤ voltage ∧ voltage ≤ 2.50) →
      evaluatePHQuality voltage pH1 = "Bad - Alkaline") ∧
    evaluatePHQuality voltage pH1 = evaluatePHQuality voltage pH2 := by
  refine ⟨fun h => ?_, fun h => ?_, fun hA hB => ?_, rfl⟩
  · unfold evaluatePHQuality
    rw [if_pos h]
  · unfold evaluatePHQuality
    rw [if_neg (by norm_num at h ⊢; linarith [h.1]),
      if_pos (by norm_num at h ⊢; exact h)]
  · unfold evaluatePHQuality
    rw [if_neg hA, if_neg (fun hc => hB (by norm_num at hc ⊢; exact hc))]

/-- Closed witness for C1 at voltages 2.29, 2.4 and 2.51. -/
theorem evaluatePHQuality_classification_witness :
    evaluatePHQuality 2.29 7 = "Acidic - Bad" ∧
    evaluatePHQuality 2.4 7 = "Good" ∧
    evaluatePHQuality 2.51 7 = "Bad - Alkaline" :=
  ⟨(evaluatePHQuality_classification 2.29 7 0).1 (by norm_num),
   (evaluatePHQuality_classification 2.4 7 0).2.1 (by norm_num),
   (evaluatePHQuality_classification 2.51 7 0).2.2.1 (by norm_num) (by norm_num)⟩

/-- Claim C3: the overall verdict is "Excellent" iff all three labels are
"Good"; any other triple yields "Poor, Needs Treatment", and exactly then the
advisory message is emitted. -/
theorem evaluateOverallQuality_spec (p t d : String) :
    ((evaluateOverallQuality p t d).overall = "Excellent" ↔
      p = "Good" ∧ t = "Good" ∧ d = "Good") ∧
    (¬ (p = "Good" ∧ t = "Good" ∧ d = "Good") →
      (evaluateOverallQuality p t d).overall = "Poor, Needs Treatment") ∧
    ((evaluateOverallQuality p t d).advisoryEmitted = true ↔
      ¬ (p = "Good" ∧ t = "Good" ∧ d = "Good")) := by
  unfold evaluateOverallQuality
  split_ifs with h
  · exact ⟨by simp [h], fun hc => absurd h hc, by simp [h]⟩
  · refine ⟨⟨fun hq => absurd hq (by decide), fun hh => absurd hh h⟩, fun _ => rfl, ?_⟩
    simp only [decide_eq_true_eq]
    exact ⟨fun _ => h, fun _ => by decide⟩

/-- Closed witness for C3 at the triple ("Good", "Good", "Bad"). -/
theorem evaluateOverallQuality_spec_witness :
    ¬ (("Good" : String) = "Good" ∧ ("Good" : String) = "Good" ∧
        ("Bad" : String) = "Good") ∧
    (evaluateOverallQuality "Good" "Good" "Bad").overall = "Poor, Needs Treatment" :=
  ⟨by decide, (evaluateOverallQuality_spec "Good" "Good" "Bad").2.1 (by decide)⟩

/-- Claim C7: `calculateTDS` agrees with the spec's reference formula for
every raw value and temperature, and returns 0 at raw = 0, temperature 25. -/
theorem calculateTDS_matches_ref (raw : ℤ) (temperatureC : ℚ) :
    calculateTDS raw temperatureC = tdsFromRaw_ref raw temperatureC ∧
    calculateTDS 0 25 = 0 := by
  constructor
  · simp only [calculateTDS, tdsFromRaw_ref, TDS_VOLTAGE_REF, CALIBRATION_FACTOR]
    ring_nf
  · norm_num [calculateTDS, TDS_VOLTAGE_REF, CALIBRATION_FACTOR]

/-- Claim C8: an out-of-band pH voltage (below 1.0 or at/above 3.0) yields the
sentinel 0.0, and `readAllSensors` propagates that sentinel both to the printed
pH value and to the value sent to the companion device. -/
theorem pH_outOfBand_sentinel (v : ℚ) (pHRaw turbRaw tdsRaw : ℤ) (temperature : ℚ)
    (hv : v < 1.0 ∨ 3.0 ≤ v)
    (hraw : voltageOf pHRaw 1023.0 PH_VOLTAGE_REF < 1.0 ∨
      3.0 ≤ voltageOf pHRaw 1023.0 PH_VOLTAGE_REF) :
    pHFromVoltage v = 0 ∧
    (readAllSensors pHRaw turbRaw tdsRaw temperature).pHValue = 0 ∧
    (readAllSensors pHRaw turbRaw tdsRaw temperature).pHSentToCompanion = 0 := by
  refine ⟨pHFromVoltage_out v hv, ?_, ?_⟩ <;>
    simp [readAllSensors, pHFromVoltage_out _ hraw]

/-- Closed witness for C8: voltage 0.5 out of band below, and raw sample 620
(voltage 3100/1023 ≈ 3.03) out of band above. -/
theorem pH_outOfBand_sentinel_witness :
    ((0.5 : ℚ) < 1.0 ∨ (3.0 : ℚ) ≤ 0.5) ∧
    (voltageOf 620 1023.0 PH_VOLTAGE_REF < 1.0 ∨
      3.0 ≤ voltageOf 620 1023.0 PH_VOLTAGE_REF) ∧
    (pHFromVoltage 0.5 = 0 ∧ (readAllSensors 620 0 0 25).pHValue = 0 ∧
      (readAllSensors 620 0 0 25).pHSentToCompanion = 0) :=
  ⟨by norm_num, by norm_num [voltageOf, PH_VOLTAGE_REF],
    pH_outOfBand_sentinel 0.5 620 0 0 25 (by norm_num)
      (by norm_num [voltageOf, PH_VOLTAGE_REF])⟩

/-- Claim C9: the raw-to-voltage conversion is monotone non-decreasing in the
raw sample, and for raw in [0, 1023] the voltage lies in [0, PH_VOLTAGE_REF]. -/
theorem voltageOf_monotone_bounded :
    (∀ r1 r2 : ℤ, r1 ≤ r2 →
      voltageOf r1 1023.0 PH_VOLTAGE_REF ≤ voltageOf r2 1023.0 PH_VOLTAGE_REF) ∧
    (∀ raw : ℤ, 0 ≤ raw → raw ≤ 1023 →
      0 ≤ voltageOf raw 1023.0 PH_VOLTAGE_REF ∧
        voltageOf raw 1023.0 PH_VOLTAGE_REF ≤ PH_VOLTAGE_REF) := by
  refine ⟨fun r1 r2 h => ?_, fun raw h0 h1 => ?_⟩
  · unfold voltageOf PH_VOLTAGE_REF
    have h2 : (r1 : ℚ) ≤ (r2 : ℚ) := by exact_mod_cast h
    norm_num
    linarith
  · unfold voltageOf PH_VOLTAGE_REF
    have h2 : (0 : ℚ) ≤ (raw : ℚ) := by exact_mod_cast h0
    have h3 : (raw : ℚ) ≤ 1023 := by exact_mod_cast h1
    norm_num
    constructor <;> linarith

/-- Closed witness for C9 at raw samples 0, 512 and 1023. -/
theorem voltageOf_monotone_bounded_witness :
    voltageOf 0 1023.0 PH_VOLTAGE_REF ≤ voltageOf 1023 1023.0 PH_VOLTAGE_REF ∧
    (0 ≤ voltageOf 512 1023.0 PH_VOLTAGE_REF ∧
      voltageOf 512 1023.0 PH_VOLTAGE_REF ≤ PH_VOLTAGE_REF) :=
  ⟨voltageOf_monotone_bounded.1 0 1023 (by norm_num),
   voltageOf_monotone_bounded.2 512 (by norm_num) (by norm_num)⟩

/-- Value of `pHFromVoltage` at the band boundary 1.6 (second band applies). -/
lemma pHFromVoltage_at_16 : pHFromVoltage 1.6 = 8 := by
  norm_num [pHFromVoltage, mapVoltageToPH]

/-- Value of `pHFromVoltage` at the band boundary 2.0 (third band applies). -/
lemma pHFromVoltage_at_2 : pHFromVoltage 2 = 6 := by
  norm_num [pHFromVoltage, mapVoltageToPH]

/-- Value of `pHFromVoltage` at the band boundary 2.5 (fourth band applies). -/
lemma pHFromVoltage_at_25 : pHFromVoltage 2.5 = 7.5 := by
  norm_num [pHFromVoltage, mapVoltageToPH]

/-- Just below 2.0 the pH output stays at least 1 away from the value at 2.0:
band two approaches 9 while the function value at 2.0 is 6. -/
lemma pHFromVoltage_jump_gap (v : ℚ) (h1 : 1.9 ≤ v) (h2 : v < 2) :
    1 ≤ |pHFromVoltage v - pHFromVoltage 2| := by
  have hlin := pHFromVoltage_lin2 v (by norm_num at h1 ⊢; linarith) (by norm_num at h2 ⊢; linarith)
  rw [hlin, pHFromVoltage_at_2]
  have hge : (1 : ℚ) ≤ 8 + (v - 1.6) * (5 / 2) - 6 := by norm_num at h1 ⊢; linarith
  exact le_trans hge (le_abs_self _)

/-- `pHFromVoltage` is continuous at the boundary 1.6 between bands 1 and 2. -/
lemma pHFromVoltage_contAt_16 : contAtQ pHFromVoltage 1.6 := by
  intro ε hε
  refine ⟨min (ε / 3) (1 / 5), lt_min (by linarith) (by norm_num), fun v hv => ?_⟩
  have hv1 : |v - 1.6| < ε / 3 := lt_of_lt_of_le hv (min_le_left _ _)
  have hv2 : |v - 1.6| < 1 / 5 := lt_of_lt_of_le hv (min_le_right _ _)
  have hb := abs_lt.mp hv2
  rw [pHFromVoltage_at_16]
  rcases lt_or_le v 1.6 with hcase | hcase
  · have hlin := pHFromVoltage_lin1 v (by norm_num at hb ⊢; linarith [hb.1]) hcase
    rw [hlin]
    have habs : |7 + (v - 1) * (5 / 3) - 8| = (5 / 3) * |v - 1.6| := by
      rw [show (7 : ℚ) + (v - 1) * (5 / 3) - 8 = (5 / 3) * (v - 1.6) by ring,
        abs_mul, abs_of_pos (show (0 : ℚ) < 5 / 3 by norm_num)]
    rw [habs]
    calc (5 / 3) * |v - 1.6| < (5 / 3) * (ε / 3) :=
          mul_lt_mul_of_pos_left hv1 (by norm_num)
      _ ≤ ε := by linarith
  · have hlin := pHFromVoltage_lin2 v hcase (by norm_num at hb ⊢; linarith [hb.2])
    rw [hlin]
    have habs : |8 + (v - 1.6) * (5 / 2) - 8| = (5 / 2) * |v - 1.6| := by
      rw [show (8 : ℚ) + (v - 1.6) * (5 / 2) - 8 = (5 / 2) * (v - 1.6) by ring,
        abs_mul, abs_of_pos (show (0 : ℚ) < 5 / 2 by norm_num)]
    rw [habs]
    calc (5 / 2) * |v - 1.6| < (5 / 2) * (ε / 3) :=
          mul_lt_mul_of_pos_left hv1 (by norm_num)
      _ ≤ ε := by linarith

/-- `pHFromVoltage` is continuous at the boundary 2.5 between bands 3 and 4. -/
lemma pHFromVoltage_contAt_25 : contAtQ pHFromVoltage 2.5 := by
  intro ε hε
  refine ⟨min (ε / 4) (2 / 5), lt_min (by linarith) (by norm_num), fun v hv => ?_⟩
  have hv1 : |v - 2.5| < ε / 4 := lt_of_lt_of_le hv (min_le_left _ _)
  have hv2 : |v - 2.5| < 2 / 5 := lt_of_lt_of_le hv (min_le_right _ _)
  have hb := abs_lt.mp hv2
  rw [pHFromVoltage_at_25]
  rcases lt_or_le v 2.5 with hcase | hcase
  · have hlin := pHFromVoltage_lin3 v (by norm_num at hb ⊢; linarith [hb.1]) hcase
    rw [hlin]
    have habs : |6 + (v - 2) * 3 - 7.5| = 3 * |v - 2.5| := by
      rw [show (6 : ℚ) + (v - 2) * 3 - 7.5 = 3 * (v - 2.5) by norm_num; ring,
        abs_mul, abs_of_pos (show (0 : ℚ) < 3 by norm_num)]
    rw [habs]
    calc 3 * |v - 2.5| < 3 * (ε / 4) := mul_lt_mul_of_pos_left hv1 (by norm_num)
      _ ≤ ε := by linarith
  · have hlin := pHFromVoltage_lin4 v hcase (by norm_num at hb ⊢; linarith [hb.2])
    rw [hlin]
    have habs : |7.5 + (v - 2.5) * 3 - 7.5| = 3 * |v - 2.5| := by
      rw [show (7.5 : ℚ) + (v - 2.5) * 3 - 7.5 = 3 * (v - 2.5) by ring,
        abs_mul, abs_of_pos (show (0 : ℚ) < 3 by norm_num)]
    rw [habs]
    calc 3 * |v - 2.5| < 3 * (ε / 4) := mul_lt_mul_of_pos_left hv1 (by norm_num)
      _ ≤ ε := by linarith

/-- Claim C2 counterexample: `pHFromVoltage` is NOT continuous at the band
boundary 2.0. Band two ([1.6, 2.0), output towards 9) and band three
([2.0, 2.5), output from 6) do not meet: arbitrarily close below 2.0 the
output differs from `pHFromVoltage 2 = 6` by at least 1. -/
theorem pHFromVoltage_not_contAt_2 : ¬ contAtQ pHFromVoltage 2 := by
  intro hc
  rcases hc 1 one_pos with ⟨δ, hδ, hall⟩
  rcases le_or_lt δ (1 / 5) with hcase | hcase
  · have hlt : |2 - δ / 2 - 2| < δ := by
      rw [show (2 : ℚ) - δ / 2 - 2 = -(δ / 2) by ring, abs_neg,
        abs_of_pos (by linarith)]
      linarith
    have hsmall := hall (2 - δ / 2) hlt
    have hgap := pHFromVoltage_jump_gap (2 - δ / 2) (by norm_num; linarith) (by linarith)
    linarith
  · have hlt : |2 - 1 / 10 - 2| < δ := by
      rw [show (2 : ℚ) - 1 / 10 - 2 = -(1 / 10) by ring, abs_neg,
        abs_of_pos (by norm_num)]
      linarith
    have hsmall := hall (2 - 1 / 10) hlt
    have hgap := pHFromVoltage_jump_gap (2 - 1 / 10) (by norm_num) (by norm_num)
    linarith

/-- Claim C2 (amended): `pHFromVoltage` is piecewise-linear on the four bands
with the stated interpolation formula, is continuous at the band boundaries
1.6 and 2.5 (but not at 2.0, see the counterexample), and voltage 1.3 yields
pH 7.5 exactly. -/
theorem pHFromVoltage_piecewise_linear :
    (∀ v : ℚ, 1.0 ≤ v → v < 1.6 → pHFromVoltage v = mapVoltageToPH v 7.0 8.0 1.0 1.6) ∧
    (∀ v : ℚ, 1.6 ≤ v → v < 2.0 → pHFromVoltage v = mapVoltageToPH v 8.0 9.0 1.6 2.0) ∧
    (∀ v : ℚ, 2.0 ≤ v → v < 2.5 → pHFromVoltage v = mapVoltageToPH v 6.0 7.5 2.0 2.5) ∧
    (∀ v : ℚ, 2.5 ≤ v → v < 3.0 → pHFromVoltage v = mapVoltageToPH v 7.5 9.0 2.5 3.0) ∧
    contAtQ pHFromVoltage 1.6 ∧ contAtQ pHFromVoltage 2.5 ∧
    pHFromVoltage 1.3 = 7.5 :=
  ⟨pHFromVoltage_in1, pHFromVoltage_in2, pHFromVoltage_in3, pHFromVoltage_in4,
    pHFromVoltage_contAt_16, pHFromVoltage_contAt_25,
    by norm_num [pHFromVoltage, mapVoltageToPH]⟩

/-- Closed witness for C2 (amended) at voltage 1.3 in band one. -/
theorem pHFromVoltage_piecewise_linear_witness :
    (1.0 : ℚ) ≤ 1.3 ∧ (1.3 : ℚ) < 1.6 ∧
    pHFromVoltage 1.3 = mapVoltageToPH 1.3 7.0 8.0 1.0 1.6 ∧
    pHFromVoltage 1.3 = 7.5 :=
  ⟨by norm_num, by norm_num,
    pHFromVoltage_piecewise_linear.1 1.3 (by norm_num) (by norm_num),
    pHFromVoltage_piecewise_linear.2.2.2.2.2.2⟩

/-- `processCommand` on a token equal to "r" case-insensitively leaves the
state unchanged and invokes the reading. -/
lemma processCommand_r (s : LoopState) (cmd : String)
    (h : equalsIgnoreCase cmd "r" = true) : processCommand s cmd = (s, true) := by
  unfold processCommand
  split_ifs with h1 h2 h3
  · subst h1; exact absurd h (by decide)
  · subst h2; exact absurd h (by decide)
  · subst h3; exact absurd h (by decide)
  · rfl

/-- `processCommand` on "st" halts and does not invoke the reading. -/
lemma processCommand_st (s : LoopState) :
    processCommand s "st" = ({ s with isRunning := false }, false) := by
  unfold processCommand
  rw [if_pos rfl]

/-- `processCommand` never changes `lastReadingTime`. -/
lemma processCommand_lastReadingTime (s : LoopState) (cmd : String) :
    (processCommand s cmd).1.lastReadingTime = s.lastReadingTime := by
  unfold processCommand
  split_ifs <;> rfl

/-- In a command iteration, the command branch invokes `readAllSensors`
exactly when `processCommand` says so, whatever the scheduler does. -/
lemma loopStep_commandRead (s : LoopState) (cmd : String) (t : TimeMark) (nowMs : ℕ) :
    (loopStep s (some cmd) t nowMs).2.commandReadInvoked = (processCommand s cmd).2 := by
  simp only [loopStep]
  split_ifs <;> rfl

/-- An "st" iteration halts: the resulting state is the old one with
`isRunning := false`, and neither scheduler trigger fires. -/
lemma loopStep_st (s : LoopState) (t : TimeMark) (nowMs : ℕ) :
    loopStep s (some "st") t nowMs =
      ({ s with isRunning := false },
        { commandReadInvoked := false, dailyLogInvoked := false,
          periodicReadInvoked := false }) := by
  simp only [loopStep, processCommand_st]
  simp

/-- Claim C4: in an iteration that is running at the scheduler check, the
daily log action is invoked iff the wall clock reads exactly 10:00:00. -/
theorem dailyLog_iff (s : LoopState) (input : Option String) (t : TimeMark) (nowMs : ℕ)
    (h : (loopStep s input t nowMs).1.isRunning = true) :
    ((loopStep s input t nowMs).2.dailyLogInvoked = true ↔
      t.hour = 10 ∧ t.minute = 0 ∧ t.second = 0) := by
  cases input with
  | none =>
    simp only [loopStep] at h ⊢
    split_ifs at h ⊢ with h1 h2 <;> simp_all
  | some cmd =>
    simp only [loopStep] at h ⊢
    split_ifs at h ⊢ with h1 h2 <;> simp_all

/-- Closed witness for C4: at wall time 10:00:00 in a running iteration the
daily log fires. -/
theorem dailyLog_iff_witness :
    (loopStep ⟨true, 0⟩ none ⟨10, 0, 0⟩ 0).1.isRunning = true ∧
    ((loopStep ⟨true, 0⟩ none ⟨10, 0, 0⟩ 0).2.dailyLogInvoked = true ↔
      (10 : ℕ) = 10 ∧ (0 : ℕ) = 0 ∧ (0 : ℕ) = 0) :=
  ⟨by decide, dailyLog_iff ⟨true, 0⟩ none ⟨10, 0, 0⟩ 0 (by decide)⟩

/-- Claim C5: a console token equal to "r" case-insensitively invokes
`readAllSensors` immediately in that iteration, for every state (so regardless
of RunState) and any clock values; and after "st" (which halts), an "r"
iteration still performs the reading. -/
theorem rCommand_bypasses_runstate (s : LoopState) (cmd : String) (t t2 : TimeMark)
    (nowMs nowMs2 : ℕ) (h : equalsIgnoreCase cmd "r" = true) :
    (loopStep s (some cmd) t nowMs).2.commandReadInvoked = true ∧
    (loopStep s (some "st") t nowMs).1.isRunning = false ∧
    (loopStep (loopStep s (some "st") t nowMs).1 (some cmd) t2 nowMs2).2.commandReadInvoked
      = true := by
  refine ⟨?_, ?_, ?_⟩
  · rw [loopStep_commandRead, processCommand_r s cmd h]
  · rw [loopStep_st]
  · rw [loopStep_st, loopStep_commandRead, processCommand_r _ cmd h]

/-- Closed witness for C5: the sequence "st" then "R" still reads. -/
theorem rCommand_bypasses_runstate_witness :
    equalsIgnoreCase "R" "r" = true ∧
    ((loopStep ⟨true, 0⟩ (some "R") ⟨9, 0, 0⟩ 5).2.commandReadInvoked = true ∧
     (loopStep ⟨true, 0⟩ (some "st") ⟨9, 0, 0⟩ 5).1.isRunning = false ∧
     (loopStep (loopStep ⟨true, 0⟩ (some "st") ⟨9, 0, 0⟩ 5).1 (some "R") ⟨9, 0, 1⟩ 6).2.commandReadInvoked = true) :=
  ⟨by decide,
    rCommand_bypasses_runstate ⟨true, 0⟩ "R" ⟨9, 0, 0⟩ ⟨9, 0, 1⟩ 5 6 (by decide)⟩

/-- 32-bit elapsed time equals plain subtraction when the counter has not
wrapped past `last`. -/
lemma millisElapsed_no_wrap (now last : ℕ) (h1 : last ≤ now)
    (h2 : now < last + 2 ^ 32) : millisElapsed now last = now - last := by
  unfold millisElapsed
  rw [show now + 2 ^ 32 - last = (now - last) + 2 ^ 32 by omega,
    Nat.add_mod_right, Nat.mod_eq_of_lt (by omega)]

/-- Claim C6: in an iteration that is running at the scheduler check, with the
monotonic counter not having wrapped since the last reading, the periodic
trigger fires iff at least 60000 ms have elapsed; on fire `lastReadingTime`
becomes the current time, otherwise it is unchanged. -/
theorem periodicTrigger_spec (s : LoopState) (input : Option String) (t : TimeMark)
    (nowMs : ℕ) (hrun : (loopStep s input t nowMs).1.isRunning = true)
    (h1 : s.lastReadingTime ≤ nowMs) (h2 : nowMs < s.lastReadingTime + 2 ^ 32) :
    ((loopStep s input t nowMs).2.periodicReadInvoked = true ↔
      60000 ≤ nowMs - s.lastReadingTime) ∧
    (loopStep s input t nowMs).1.lastReadingTime =
      (if 60000 ≤ nowMs - s.lastReadingTime then nowMs else s.lastReadingTime) := by
  have hkey : millisElapsed nowMs s.lastReadingTime = nowMs - s.lastReadingTime :=
    millisElapsed_no_wrap nowMs s.lastReadingTime h1 h2
  cases input with
  | none =>
    simp only [loopStep] at hrun ⊢
    split_ifs at hrun ⊢ with hA hB <;>
      simp_all [readingInterval]
  | some cmd =>
    simp only [loopStep, processCommand_lastReadingTime] at hrun ⊢
    split_ifs at hrun ⊢ with hA hB <;>
      simp_all [readingInterval, processCommand_lastReadingTime]

/-- Closed witness for C6: with last reading at 0 and the counter at 60000 in
a running iteration, the periodic trigger fires and resets the timestamp. -/
theorem periodicTrigger_spec_witness :
    (loopStep ⟨true, 0⟩ none ⟨0, 0, 0⟩ 60000).1.isRunning = true ∧
    (0 : ℕ) ≤ 60000 ∧ (60000 : ℕ) < 0 + 2 ^ 32 ∧
    (((loopStep ⟨true, 0⟩ none ⟨0, 0, 0⟩ 60000).2.periodicReadInvoked = true ↔
        60000 ≤ 60000 - 0) ∧
      (loopStep ⟨true, 0⟩ none ⟨0, 0, 0⟩ 60000).1.lastReadingTime =
        (if 60000 ≤ 60000 - 0 then 60000 else 0)) :=
  ⟨by decide, by decide, by decide,
    periodicTrigger_spec ⟨true, 0⟩ none ⟨0, 0, 0⟩ 60000 (by decide) (by decide)
      (by decide)⟩

/-- Claim C10: an "r"-command iteration leaves `lastReadingTime` exactly as a
no-input iteration would: the command-triggered reading never touches it, and
when the periodic trigger does not fire it is unchanged. -/
theorem rCommand_preserves_lastReadingTime (s : LoopState) (t : TimeMark) (nowMs : ℕ) :
    (loopStep s (some "r") t nowMs).1.lastReadingTime =
      (loopStep s none t nowMs).1.lastReadingTime ∧
    ((loopStep s (some "r") t nowMs).2.periodicReadInvoked = false →
      (loopStep s (some "r") t nowMs).1.lastReadingTime = s.lastReadingTime) := by
  have hpc : processCommand s "r" = (s, true) := processCommand_r s "r" (by decide)
  simp only [loopStep, hpc]
  split_ifs with hA hB <;> simp_all

/-- Closed witness for C10: an "r" reading at time 50 with last reading at 50
leaves the timestamp at 50 (the periodic trigger did not fire). -/
theorem rCommand_preserves_lastReadingTime_witness :
    (loopStep ⟨true, 50⟩ (some "r") ⟨9, 0, 0⟩ 50).2.periodicReadInvoked = false ∧
    (loopStep ⟨true, 50⟩ (some "r") ⟨9, 0, 0⟩ 50).1.lastReadingTime = 50 :=
  ⟨by decide,
    (rCommand_preserves_lastReadingTime ⟨true, 50⟩ ⟨9, 0, 0⟩ 50).2 (by decide)⟩
